import Mathlib

/-
Shallow embedding of the timeline interaction and coordinate engine of
src/QtEditorialTimelineWidget.py.

Pixel coordinates, zoom factors and frame positions are modelled as exact
rationals (the Python source uses floats); clip frames and durations, which
the source only ever produces as Python ints, are modelled as integers.
Only the model-state effects of each method are embedded: the creation and
placement of graphics items inside updateLayout is rendering and carries no
model state beyond the end-frame recomputation, which is embedded.
-/

/-- DEFAULT_CONSTANTS LEFT_MARGIN, as a rational for coordinate arithmetic. -/
def LEFT_MARGIN : ℚ := 150

/-- DEFAULT_CONSTANTS BASE_PIXELS_PER_FRAME, as a rational for coordinate arithmetic. -/
def BASE_PIXELS_PER_FRAME : ℚ := 10

/-- Python 3 round() on an exact rational: round half to even, returning an integer. -/
def pyRound (q : ℚ) : ℤ :=
  let f := ⌊q⌋
  let r := q - (f : ℚ)
  if r < 1/2 then f
  else if 1/2 < r then f + 1
  else if f % 2 = 0 then f else f + 1

/-- ClipData: a titled clip with an integer start frame and duration in frames. -/
structure ClipData where
  title : String
  start_frame : ℤ
  duration_frames : ℤ
deriving DecidableEq

/-- TrackData: a named track with a height and an ordered list of clips. -/
structure TrackData where
  name : String
  height : ℚ
  clips : List ClipData
deriving DecidableEq

/-- The model state owned by TimelineView: zoom factors, playhead frame,
end frame and the track list. -/
structure TimelineViewState where
  h_zoom : ℚ
  v_zoom : ℚ
  playhead_frame : ℚ
  end_frame : ℚ
  tracks : List TrackData
deriving DecidableEq

namespace TimelineView

/-- TimelineView.minimum_end_frame: running maximum over all clips of
start_frame + duration_frames, starting from 0. -/
def minimum_end_frame (tracks : List TrackData) : ℤ :=
  tracks.foldl
    (fun max_end track =>
      track.clips.foldl
        (fun max_end clip =>
          if clip.start_frame + clip.duration_frames > max_end
          then clip.start_frame + clip.duration_frames
          else max_end)
        max_end)
    0

/-- TimelineView.updateLayout, restricted to its model-state effect: the
stored end frame is unconditionally recomputed as max(minimum_end_frame() + 24, 100).
All other work in updateLayout repositions graphics items from the (unchanged)
playhead frame, zoom factors and track list. -/
def updateLayout (s : TimelineViewState) : TimelineViewState :=
  { s with end_frame := ((max (minimum_end_frame s.tracks + 24) 100 : ℤ) : ℚ) }

/-- TimelineView.addTrack: append the track, then updateLayout. -/
def addTrack (s : TimelineViewState) (t : TrackData) : TimelineViewState :=
  updateLayout { s with tracks := s.tracks ++ [t] }

/-- TimelineView.setPlayheadFrame: store the argument as-is, then updateLayout.
(The time-label refresh only changes display state.) -/
def setPlayheadFrame (s : TimelineViewState) (frame : ℚ) : TimelineViewState :=
  updateLayout { s with playhead_frame := frame }

/-- TimelineView.updateFromPlayhead: store int(round(new_frame)), then updateLayout. -/
def updateFromPlayhead (s : TimelineViewState) (new_frame : ℚ) : TimelineViewState :=
  updateLayout { s with playhead_frame := ((pyRound new_frame : ℤ) : ℚ) }

/-- TimelineView.setEndFrame: clamp the argument up to minimum_end_frame() when
below it, store it, then updateLayout. -/
def setEndFrame (s : TimelineViewState) (frame : ℚ) : TimelineViewState :=
  let min_end := minimum_end_frame s.tracks
  let frame := if frame < (min_end : ℚ) then (min_end : ℚ) else frame
  updateLayout { s with end_frame := frame }

/-- TimelineView.setHZoom: h_zoom := 0.5 + (value / 100) * 3.5, then updateLayout. -/
def setHZoom (s : TimelineViewState) (value : ℚ) : TimelineViewState :=
  updateLayout { s with h_zoom := 1/2 + value / 100 * (7/2) }

/-- TimelineView.setVZoom: v_zoom := 0.5 + (value / 100) * 1.5, then updateLayout. -/
def setVZoom (s : TimelineViewState) (value : ℚ) : TimelineViewState :=
  updateLayout { s with v_zoom := 1/2 + value / 100 * (3/2) }

/-- TimelineView.playbackStep: increment the playhead, wrap to 0 when it reaches
the end frame, then push the result through updateFromPlayhead. -/
def playbackStep (s : TimelineViewState) : TimelineViewState :=
  let s := { s with playhead_frame := s.playhead_frame + 1 }
  let s :=
    if s.end_frame ≤ s.playhead_frame then { s with playhead_frame := 0 } else s
  updateFromPlayhead s s.playhead_frame

/-- The frame-to-pixel mapping used throughout updateLayout and the item
reposition code: leftMargin + frame * basePixelsPerFrame * hZoom. -/
def frameToX (frame h_zoom : ℚ) : ℚ :=
  LEFT_MARGIN + frame * BASE_PIXELS_PER_FRAME * h_zoom

/-- The pixel-to-frame mapping used by the playhead, end-line and clip drag
handlers: (x - leftMargin) / (basePixelsPerFrame * hZoom). -/
def xToFrame (x h_zoom : ℚ) : ℚ :=
  (x - LEFT_MARGIN) / (BASE_PIXELS_PER_FRAME * h_zoom)

end TimelineView

namespace ClipItem

/-- ClipItem.SNAP_TOLERANCE. -/
def SNAP_TOLERANCE : ℤ := 1

/-- The snapping candidates appended after the seed in
ClipItem.mouseReleaseEvent: for each other clip, in track order, first its end
frame when the raw frame is within tolerance of it, then its start frame minus
the dragged duration when the dragged clip's end would land within tolerance of
that start. `others` is the track's clip list with the dragged clip's own data
removed (the source loop skips it by identity). -/
def snapCandidates (original_candidate dur : ℤ) : List ClipData → List ℤ
  | [] => []
  | other :: rest =>
    let other_end := other.start_frame + other.duration_frames
    (if |original_candidate - other_end| ≤ SNAP_TOLERANCE
     then [other_end] else []) ++
    (if |original_candidate + dur - other.start_frame| ≤ SNAP_TOLERANCE
     then [other.start_frame - dur] else []) ++
    snapCandidates original_candidate dur rest

/-- candidate_options: the raw frame, then the snap candidates in discovery order. -/
def candidate_options (original_candidate dur : ℤ) (others : List ClipData) : List ℤ :=
  original_candidate :: snapCandidates original_candidate dur others

/-- Python min(list, key=k) for a non-empty list given as head and tail: scan
left to right, replacing the current best only on a strictly smaller key, so
the earliest element among those with minimal key wins. -/
def pyMinList (key : ℤ → ℤ) (first : ℤ) (rest : List ℤ) : ℤ :=
  rest.foldl (fun best c => if key c < key best then c else best) first

/-- The candidate chosen in ClipItem.mouseReleaseEvent:
min(candidate_options, key=|c - original_candidate|). -/
def chosenCandidate (original_candidate dur : ℤ) (others : List ClipData) : ℤ :=
  pyMinList (fun c => |c - original_candidate|) original_candidate
    (snapCandidates original_candidate dur others)

/-- The overlap scan of ClipItem.mouseReleaseEvent: does placing the dragged
clip at `candidate` overlap some other clip's [start, start+duration) interval? -/
def overlapsAny (candidate dur : ℤ) (others : List ClipData) : Bool :=
  others.any (fun other =>
    decide (candidate < other.start_frame + other.duration_frames) &&
    decide (candidate + dur > other.start_frame))

/-- The frame committed by ClipItem.mouseReleaseEvent, starting from the
rounded raw frame: choose the closest candidate, revert to the raw frame when
the choice would overlap another clip, then clamp to non-negative. -/
def resolveFrame (original_candidate dur : ℤ) (others : List ClipData) : ℤ :=
  let candidate := chosenCandidate original_candidate dur others
  let candidate :=
    if overlapsAny candidate dur others then original_candidate else candidate
  max 0 candidate

/-- The full drag-release pipeline of ClipItem.mouseReleaseEvent: round the
released x position to a raw frame via the pixel-to-frame mapping, then resolve
snapping and overlap. -/
def mouseReleaseFrame (x h_zoom : ℚ) (dur : ℤ) (others : List ClipData) : ℤ :=
  resolveFrame (pyRound (TimelineView.xToFrame x h_zoom)) dur others

/-- The committed update of the dragged clip's data at the end of
ClipItem.mouseReleaseEvent: start_frame := max(0, candidate). -/
def commitDrag (dragged : ClipData) (others : List ClipData)
    (original_candidate : ℤ) : ClipData :=
  { dragged with
      start_frame := resolveFrame original_candidate dragged.duration_frames others }

end ClipItem

/-- A theme value: the source dictionaries hold color strings and integer
layout constants. -/
inductive TVal where
  | str (s : String)
  | num (n : ℤ)
deriving DecidableEq

/-- A Python dict with string keys, as an ordered association list with
unique keys. -/
abbrev Dict := List (String × TVal)

/-- dict[k] = v for one key: replace the value in place when the key exists,
otherwise append the binding, following Python dict semantics. -/
def dictSet (d : Dict) (k : String) (v : TVal) : Dict :=
  if d.any (fun p => p.1 == k)
  then d.map (fun p => if p.1 == k then (k, v) else p)
  else d ++ [(k, v)]

/-- d.update(u): set every binding of u into d, in order. -/
def dictUpdate (d u : Dict) : Dict :=
  u.foldl (fun acc p => dictSet acc p.1 p.2) d

/-- d.get(k) / d[k] as an optional lookup. -/
def dictGet (d : Dict) (k : String) : Option TVal :=
  (d.find? (fun p => p.1 == k)).map (fun p => p.2)

/-- DEFAULT_CONSTANTS from the source module. -/
def DEFAULT_CONSTANTS : Dict :=
  [("LEFT_MARGIN", TVal.num 150),
   ("TOP_MARGIN", TVal.num 30),
   ("BOTTOM_MARGIN", TVal.num 20),
   ("TRACK_SPACING", TVal.num 2),
   ("BASE_PIXELS_PER_FRAME", TVal.num 10),
   ("DEFAULT_TRACK_HEIGHT", TVal.num 60)]

/-- The "dark" entry of THEMES. -/
def darkTheme : Dict :=
  [("timeLabel_bg", TVal.str ("#141414")),
   ("timeLabel_text", TVal.str ("#FFFFFF")),
   ("ruler_bg", TVal.str ("#1E1E1E")),
   ("ruler_tick_major", TVal.str ("#FFFFFF")),
   ("ruler_tick_minor", TVal.str ("#808080")),
   ("playhead_color", TVal.str ("#FFA500")),
   ("track_header_bg", TVal.str ("#282828")),
   ("track_header_text", TVal.str ("#FFFFFF")),
   ("track_lane_bg1", TVal.str ("#323232")),
   ("track_lane_bg2", TVal.str ("#3E3E3E")),
   ("track_lane_border", TVal.str ("#505050")),
   ("clip_fill", TVal.str ("#6496C8")),
   ("clip_fill_selected", TVal.str ("#96C8FF")),
   ("clip_border", TVal.str ("#000000")),
   ("end_line_color", TVal.str ("#C83232")),
   ("background_color", TVal.str ("#111111"))]

/-- The "light" entry of THEMES. -/
def lightTheme : Dict :=
  [("timeLabel_bg", TVal.str ("#F0F0F0")),
   ("timeLabel_text", TVal.str ("#000000")),
   ("ruler_bg", TVal.str ("#E0E0E0")),
   ("ruler_tick_major", TVal.str ("#000000")),
   ("ruler_tick_minor", TVal.str ("#808080")),
   ("playhead_color", TVal.str ("#FF8C00")),
   ("track_header_bg", TVal.str ("#D0D0D0")),
   ("track_header_text", TVal.str ("#000000")),
   ("track_lane_bg1", TVal.str ("#E8E8E8")),
   ("track_lane_bg2", TVal.str ("#F0F0F0")),
   ("track_lane_border", TVal.str ("#A0A0A0")),
   ("clip_fill", TVal.str ("#90CAF9")),
   ("clip_fill_selected", TVal.str ("#64B5F6")),
   ("clip_border", TVal.str ("#000000")),
   ("end_line_color", TVal.str ("#E53935")),
   ("background_color", TVal.str ("#FFFFFF"))]

/-- THEMES, a dict of theme dicts keyed by preset name. -/
def THEMES : List (String × Dict) :=
  [("dark", darkTheme), ("light", lightTheme)]

/-- The get_theme argument: Python None, a preset-name string, or an override
dict. -/
inductive ThemeConfig where
  | nil
  | str (s : String)
  | dict (d : Dict)

/-- get_theme: start from the dark theme; a recognized preset name replaces it,
an override dict is merged over the dark theme; finally merge the result over
DEFAULT_CONSTANTS. -/
def get_theme (config : ThemeConfig) : Dict :=
  let theme := darkTheme
  let theme :=
    match config with
    | ThemeConfig.str s =>
      match THEMES.find? (fun p => p.1 == s) with
      | some p => p.2
      | none => theme
    | ThemeConfig.dict d => dictUpdate darkTheme d
    | ThemeConfig.nil => theme
  dictUpdate DEFAULT_CONSTANTS theme

/-- The public mutating operations of TimelineView that end in a layout
recompute. -/
inductive TimelineOp where
  | addTrack (t : TrackData)
  | setPlayheadFrame (frame : ℚ)
  | setEndFrame (frame : ℚ)
  | setHZoom (value : ℚ)
  | setVZoom (value : ℚ)
  | playbackStep

/-- Apply one public mutating operation to the view state. -/
def applyOp (s : TimelineViewState) : TimelineOp → TimelineViewState
  | TimelineOp.addTrack t => TimelineView.addTrack s t
  | TimelineOp.setPlayheadFrame f => TimelineView.setPlayheadFrame s f
  | TimelineOp.setEndFrame f => TimelineView.setEndFrame s f
  | TimelineOp.setHZoom v => TimelineView.setHZoom s v
  | TimelineOp.setVZoom v => TimelineView.setVZoom s v
  | TimelineOp.playbackStep => TimelineView.playbackStep s

/-- The trivial resolver described by the refinement claim: round the released
x position to a frame and clamp to non-negative, ignoring the other clips. -/
def trivialResolve (x h_zoom : ℚ) : ℤ :=
  max 0 (pyRound ((x - LEFT_MARGIN) / (BASE_PIXELS_PER_FRAME * h_zoom)))

/-- A fresh view state with no tracks after the initial layout pass:
both zooms 1.0, playhead 0, end frame 100. -/
def initialEmptyState : TimelineViewState :=
  ⟨1, 1, 0, 100, []⟩

/-- n playback clock ticks applied to the empty initial state. -/
def playbackIter : ℕ → TimelineViewState
  | 0 => initialEmptyState
  | n + 1 => TimelineView.playbackStep (playbackIter n)

/-- Python round of an integer value is that integer. -/
theorem pyRound_intCast (n : ℤ) : pyRound ((n : ℤ) : ℚ) = n := by
  unfold pyRound
  norm_num [Int.floor_intCast]

/-- The stable min over the candidate options always returns the seed raw
frame: the seed has key |raw - raw| = 0, every key is non-negative, and the
scan replaces the best only on a strictly smaller key. -/
theorem chosenCandidate_eq_raw (raw dur : ℤ) (others : List ClipData) :
    ClipItem.chosenCandidate raw dur others = raw := by
  unfold ClipItem.chosenCandidate ClipItem.pyMinList
  generalize ClipItem.snapCandidates raw dur others = xs
  induction xs with
  | nil => rfl
  | cons c cs ih =>
    simp only [List.foldl_cons]
    have h : ¬ (|c - raw| < |raw - raw|) := by
      rw [sub_self, abs_zero]
      exact (abs_nonneg _).not_lt
    rw [if_neg h]
    exact ih

/-- The resolved commit frame is always max(0, rawFrame): the stable min keeps
the raw frame, and the overlap fallback also yields the raw frame. -/
theorem resolveFrame_eq_max (raw dur : ℤ) (others : List ClipData) :
    ClipItem.resolveFrame raw dur others = max 0 raw := by
  unfold ClipItem.resolveFrame
  rw [chosenCandidate_eq_raw]
  simp only [ite_self]

/-- updateLayout leaves the track list unchanged. -/
theorem updateLayout_tracks (s : TimelineViewState) :
    (TimelineView.updateLayout s).tracks = s.tracks := rfl

/-- updateLayout stores max(minimum_end_frame() + 24, 100) as the end frame. -/
theorem updateLayout_end (s : TimelineViewState) :
    (TimelineView.updateLayout s).end_frame
      = ((max (TimelineView.minimum_end_frame s.tracks + 24) 100 : ℤ) : ℚ) := rfl

/-- A playback tick leaves the track list unchanged. -/
theorem playbackStep_tracks (s : TimelineViewState) :
    (TimelineView.playbackStep s).tracks = s.tracks := by
  by_cases hc : s.end_frame ≤ s.playhead_frame + 1 <;>
    simp [TimelineView.playbackStep, TimelineView.updateFromPlayhead,
      TimelineView.updateLayout, hc]

/-- One playback tick from an empty-timeline state with integral playhead k,
k + 1 ≤ 99: no wrap occurs and the playhead advances to k + 1. -/
theorem playbackStep_state (n : ℕ) (h : n + 1 ≤ 99) :
    TimelineView.playbackStep ⟨1, 1, (n : ℚ), 100, []⟩
      = ⟨1, 1, ((n + 1 : ℕ) : ℚ), 100, []⟩ := by
  have h99 : ((n : ℚ) + 1) ≤ 99 := by exact_mod_cast h
  have hlt : ¬ ((100 : ℚ) ≤ (n : ℚ) + 1) := by
    intro hc
    linarith
  unfold TimelineView.playbackStep TimelineView.updateFromPlayhead
    TimelineView.updateLayout
  simp only [hlt, if_false, ite_false]
  have hcast : ((n : ℚ) + 1) = (((n : ℤ) + 1 : ℤ) : ℚ) := by push_cast; ring
  rw [hcast, pyRound_intCast]
  simp only [TimelineView.minimum_end_frame, List.foldl_nil]
  norm_num

/-- With no tracks, every playback-tick count k ≤ 99 leaves the state at
zooms 1, playhead k, end frame 100. -/
theorem playbackIter_spec : ∀ k : ℕ, k ≤ 99 →
    playbackIter k = ⟨1, 1, (k : ℚ), 100, []⟩ := by
  intro k
  induction k with
  | zero =>
    intro _
    norm_num [playbackIter, initialEmptyState]
  | succ n ih =>
    intro h
    have hn : n ≤ 99 := Nat.le_of_succ_le h
    rw [playbackIter, ih hn, playbackStep_state n h]

/-- Claim C1, counterexample: with a single clip ending at frame 200, calling
setEndFrame(150) does not leave 200 as the stored end frame, because the
layout recompute at the end of setEndFrame overwrites it. -/
theorem setEndFrame_clamp_not_stored :
    ¬ (TimelineView.setEndFrame ⟨1, 1, 0, 224, [⟨"V1", 60, [⟨"A", 0, 200⟩]⟩]⟩
        150).end_frame = 200 := by decide

/-- Claim C1, amended: with a single clip ending at frame 200, setEndFrame(150)
clamps its argument up to minimumEndFrame() = 200 and stores it, but the
updateLayout call that ends the operation overwrites the stored end frame with
max(minimumEndFrame() + 24, 100) = 224, which is what remains stored. -/
theorem setEndFrame_overwritten_by_layout :
    (TimelineView.setEndFrame ⟨1, 1, 0, 224, [⟨"V1", 60, [⟨"A", 0, 200⟩]⟩]⟩
        150).end_frame = 224 ∧
    TimelineView.minimum_end_frame [⟨"V1", 60, [⟨"A", 0, 200⟩]⟩] = 200 := by
  decide

/-- Claim C2, counterexample: for clip B dropped with rawFrame = 101 on a track
with clip A ending at frame 100 (tolerance 1, no overlap at the result), the
committed start frame is not 100. -/
theorem snap_tiebreak_not_100 :
    ¬ ClipItem.resolveFrame 101 10 [⟨"A", 60, 40⟩] = 100 := by decide

/-- Claim C2, amended: the committed candidate is the element of the candidate
set (seeded with rawFrame, then snap candidates in discovery order) minimizing
|candidate - rawFrame| with ties broken by insertion order; since rawFrame
itself is the first candidate with distance 0, the example commits B at 101,
not at the discovered snap candidate 100. -/
theorem snap_tiebreak_commits_raw :
    ClipItem.candidate_options 101 10 [⟨"A", 60, 40⟩] = [101, 100] ∧
    ClipItem.chosenCandidate 101 10 [⟨"A", 60, 40⟩] = 101 ∧
    ClipItem.resolveFrame 101 10 [⟨"A", 60, 40⟩] = 101 := by decide

/-- Claim C3: for every drag release, regardless of the other clips in the
track, the committed start frame equals max(0, round(xToFrame(x))): the whole
snap-and-overlap resolver is extensionally the trivial rounding-and-clamping
resolver. -/
theorem mouseRelease_eq_trivialResolve :
    ∀ (x h_zoom : ℚ) (dur : ℤ) (others : List ClipData),
      ClipItem.mouseReleaseFrame x h_zoom dur others = trivialResolve x h_zoom := by
  intro x z dur others
  unfold ClipItem.mouseReleaseFrame trivialResolve TimelineView.xToFrame
  rw [resolveFrame_eq_max]

/-- Claim C4: when placing the dragged clip at the chosen candidate would
overlap another clip's interval in the track, the resolver discards the snap
and commits the (non-negativity-clamped) raw frame with no further overlap
correction. -/
theorem overlap_reverts_to_raw (raw dur : ℤ) (others : List ClipData)
    (h : ClipItem.overlapsAny (ClipItem.chosenCandidate raw dur others) dur others
          = true) :
    ClipItem.resolveFrame raw dur others = max 0 raw := by
  simp [ClipItem.resolveFrame, h]

/-- Claim C4, witness: clip A at [0,50), clip B at [50,100), clip C of duration
10 dragged to rawFrame 45: the overlap check fires and C commits at 45 even
though [45,55) still overlaps A. -/
theorem overlap_reverts_to_raw_witness :
    ClipItem.overlapsAny
        (ClipItem.chosenCandidate 45 10 [⟨"A", 0, 50⟩, ⟨"B", 50, 50⟩]) 10
        [⟨"A", 0, 50⟩, ⟨"B", 50, 50⟩] = true ∧
    ClipItem.resolveFrame 45 10 [⟨"A", 0, 50⟩, ⟨"B", 50, 50⟩] = max 0 45 ∧
    ClipItem.overlapsAny 45 10 [⟨"A", 0, 50⟩, ⟨"B", 50, 50⟩] = true :=
  ⟨by decide,
   overlap_reverts_to_raw 45 10 [⟨"A", 0, 50⟩, ⟨"B", 50, 50⟩] (by decide),
   by decide⟩

/-- Claim C5, counterexample: setPlayheadFrame(3/2) stores 3/2, not
round(3/2) = 2: the setter performs no rounding. -/
theorem setPlayheadFrame_not_rounded :
    ¬ (TimelineView.setPlayheadFrame initialEmptyState (3/2)).playhead_frame
        = ((pyRound (3/2) : ℤ) : ℚ) := by
  have hstore :
      (TimelineView.setPlayheadFrame initialEmptyState (3/2)).playhead_frame
        = 3/2 := rfl
  have hf : ⌊(3/2 : ℚ)⌋ = 1 := Int.floor_eq_iff.mpr (by norm_num)
  have hround : pyRound (3/2 : ℚ) = 2 := by
    unfold pyRound
    rw [hf]
    norm_num
  rw [hstore, hround]
  norm_num

/-- Claim C5, amended: setPlayheadFrame stores its argument unchanged (no
rounding and no clamping); rounding to an integer happens only on the
updateFromPlayhead path and in the time-label display. -/
theorem setPlayheadFrame_stores_argument :
    ∀ (s : TimelineViewState) (frame : ℚ),
      (TimelineView.setPlayheadFrame s frame).playhead_frame = frame :=
  fun _ _ => rfl

/-- Claim C6: with no tracks (end frame held at 100), each playback tick adds
one to the playhead and wraps to 0 on reaching the end frame: 100 ticks from
playhead 0 pass through 1..99 and return to 0, wrapping exactly once at the
100th tick. -/
theorem playback_wrap_100 :
    (∀ k ∈ List.range 99,
      (playbackIter (k + 1)).playhead_frame = ((k + 1 : ℕ) : ℚ)) ∧
    (playbackIter 100).playhead_frame = 0 := by
  constructor
  · intro k hk
    have hk99 : k + 1 ≤ 99 := List.mem_range.mp hk
    rw [playbackIter_spec (k + 1) hk99]
  · have h99 : playbackIter 99 = ⟨1, 1, ((99 : ℕ) : ℚ), 100, []⟩ :=
      playbackIter_spec 99 (le_refl 99)
    have : (100 : ℕ) = 99 + 1 := rfl
    rw [this, playbackIter, h99]
    unfold TimelineView.playbackStep TimelineView.updateFromPlayhead
      TimelineView.updateLayout
    have hwrap : (100 : ℚ) ≤ ((99 : ℕ) : ℚ) + 1 := by norm_num
    simp only [hwrap, if_true, ite_true]
    have h0 : ((0 : ℚ)) = (((0 : ℤ) : ℤ) : ℚ) := by norm_num
    rw [h0, pyRound_intCast]

/-- Claim C6, witness: the 51st tick lands on playhead 51 and the 100th tick
returns to 0. -/
theorem playback_wrap_100_witness :
    (playbackIter 51).playhead_frame = ((51 : ℕ) : ℚ) ∧
    (playbackIter 100).playhead_frame = 0 :=
  ⟨playback_wrap_100.1 50 (by decide), playback_wrap_100.2⟩

/-- Claim C7: for every frame f ≥ 0 and zoom z > 0, frame-to-pixel followed by
pixel-to-frame is the identity over exact arithmetic. -/
theorem xToFrame_frameToX (f z : ℚ) (hf : 0 ≤ f) (hz : 0 < z) :
    TimelineView.xToFrame (TimelineView.frameToX f z) z = f := by
  unfold TimelineView.xToFrame TimelineView.frameToX LEFT_MARGIN
    BASE_PIXELS_PER_FRAME
  field_simp
  ring

/-- Claim C7, witness: round-trip at f = 3, z = 2. -/
theorem xToFrame_frameToX_witness :
    (0 : ℚ) ≤ 3 ∧ (0 : ℚ) < 2 ∧
    TimelineView.xToFrame (TimelineView.frameToX 3 2) 2 = 3 :=
  ⟨by norm_num, by norm_num, xToFrame_frameToX 3 2 (by norm_num) (by norm_num)⟩

/-- Claim C8: when every other clip in the track has a non-negative start
frame, every clip after a drag-release commit still has a non-negative start
frame, because the commit stores max(0, chosenFrame). -/
theorem startFrame_nonneg (dragged : ClipData) (others : List ClipData)
    (raw : ℤ) (h : ∀ c ∈ others, 0 ≤ c.start_frame) :
    ∀ c ∈ ClipItem.commitDrag dragged others raw :: others,
      0 ≤ c.start_frame := by
  intro c hc
  rcases List.mem_cons.mp hc with hceq | hmem
  · subst hceq
    show 0 ≤ (ClipItem.commitDrag dragged others raw).start_frame
    have : (ClipItem.commitDrag dragged others raw).start_frame
        = max 0 raw := by
      unfold ClipItem.commitDrag
      exact resolveFrame_eq_max raw dragged.duration_frames others
    rw [this]
    exact le_max_left 0 raw
  · exact h c hmem

/-- Claim C8, witness: a clip of duration 3 dragged to raw frame -7 in a track
with one other clip at [5,10) commits at 0; every start frame stays ≥ 0. -/
theorem startFrame_nonneg_witness :
    (∀ c ∈ [(⟨"A", 5, 5⟩ : ClipData)], 0 ≤ c.start_frame) ∧
    ∀ c ∈ ClipItem.commitDrag ⟨"C", 0, 3⟩ [⟨"A", 5, 5⟩] (-7)
        :: [(⟨"A", 5, 5⟩ : ClipData)], 0 ≤ c.start_frame :=
  ⟨by decide, startFrame_nonneg ⟨"C", 0, 3⟩ [⟨"A", 5, 5⟩] (-7) (by decide)⟩

/-- Claim C9: merging an override dict containing only clip_fill = "#FF0000"
yields a configuration where clip_fill is the override, every other dark-theme
key keeps the dark preset's value, and every layout-constant key (absent from
both) keeps the constant default. -/
theorem config_precedence :
    dictGet (get_theme (ThemeConfig.dict [("clip_fill", TVal.str ("#FF0000"))]))
        ("clip_fill") = some (TVal.str ("#FF0000")) ∧
    (∀ p ∈ darkTheme, p.1 ≠ "clip_fill" →
      dictGet (get_theme (ThemeConfig.dict [("clip_fill", TVal.str ("#FF0000"))]))
        p.1 = some p.2) ∧
    (∀ p ∈ DEFAULT_CONSTANTS,
      dictGet (get_theme (ThemeConfig.dict [("clip_fill", TVal.str ("#FF0000"))]))
        p.1 = some p.2) := by decide

/-- Claim C9, witness: the dark ruler background survives the clip_fill
override. -/
theorem config_precedence_witness :
    dictGet (get_theme (ThemeConfig.dict [("clip_fill", TVal.str ("#FF0000"))]))
        ("ruler_bg") = some (TVal.str ("#1E1E1E")) :=
  config_precedence.2.1 ("ruler_bg", TVal.str ("#1E1E1E")) (by decide) (by decide)

/-- Claim C10: after every public mutating operation that ends in a layout
recompute (addTrack, setPlayheadFrame, setEndFrame, zoom changes, playback
tick), the stored end frame equals max(minimumEndFrame() + 24, 100) regardless
of what was stored before; in particular with no tracks it is 100. -/
theorem end_frame_layout_invariant :
    ∀ (s : TimelineViewState) (op : TimelineOp),
      (applyOp s op).end_frame
          = ((max (TimelineView.minimum_end_frame (applyOp s op).tracks + 24) 100
              : ℤ) : ℚ) ∧
      ((applyOp s op).tracks = [] → (applyOp s op).end_frame = 100) := by
  intro s op
  have key : ∀ s' : TimelineViewState,
      (TimelineView.updateLayout s').end_frame
          = ((max (TimelineView.minimum_end_frame
              (TimelineView.updateLayout s').tracks + 24) 100 : ℤ) : ℚ) ∧
      ((TimelineView.updateLayout s').tracks = [] →
        (TimelineView.updateLayout s').end_frame = 100) := by
    intro s'
    refine ⟨rfl, ?_⟩
    intro h
    rw [updateLayout_tracks] at h
    rw [updateLayout_end, h]
    norm_num [TimelineView.minimum_end_frame]
  cases op with
  | addTrack t => exact key _
  | setPlayheadFrame f => exact key _
  | setEndFrame f => exact key _
  | setHZoom v => exact key _
  | setVZoom v => exact key _
  | playbackStep => exact key _

/-- Claim C10, witness: a playback tick on the empty initial state leaves the
end frame at 100. -/
theorem end_frame_layout_invariant_witness :
    (applyOp initialEmptyState TimelineOp.playbackStep).end_frame = 100 :=
  (end_frame_layout_invariant initialEmptyState TimelineOp.playbackStep).2
    (playbackStep_tracks initialEmptyState)
